import Mathlib

/-!
Shallow embedding of the runwatch/github-reporter status-normalization and
metrics-derivation engine (current generation of the action's source).

Modelling conventions:
* ISO-8601 timestamp strings are modelled by their epoch-millisecond value,
  so a nullable/optional timestamp field becomes `Option Int` with `none`
  standing for `null`/`undefined`/the empty string (all JS-falsy).
* Other nullable/optional string fields become `Option String`; JS truthiness
  of such a field is `none`/`some ""` ↦ false, otherwise true.
* Statuses stay `String`s end to end, as in the source, so that the closed
  status-set invariant is a genuine theorem rather than a typing artifact.
* The wall clock is an injected sample stream `clock : Nat → Int` (epoch
  milliseconds); every `new Date()` / `Date.now()` call consumes the next
  sample and the number of consumed samples is returned with the result.
* Diagnostic warnings are counted (second component of the result) rather
  than printed.
-/

namespace GithubReporter

/-- Raw job record as returned by the provider API (interface GitHubJob). -/
structure GitHubJob where
  name : String
  id : Nat
  status : String
  conclusion : Option String
  started_at : Option Int
  completed_at : Option Int
  html_url : Option String
  runner_name : Option String
deriving DecidableEq, Repr

/-- Normalized per-job metrics record (interface Job). -/
structure Job where
  name : String
  job_id : String
  job_url : Option String
  status : String
  duration_seconds : Option Int
  started_at : Option Int
  completed_at : Option Int
deriving DecidableEq, Repr

/-- Raw pipeline-run record as returned by the provider API. -/
structure WorkflowRun where
  id : Nat
  workflow_id : Nat
  name : Option String
  display_title : Option String
  html_url : Option String
  status : Option String
  conclusion : Option String
  created_at : Option Int
  updated_at : Option Int
  run_attempt : Option Nat
  event : Option String
  actor_login : Option String
  head_branch : Option String
deriving DecidableEq, Repr

/-- The published metrics record (interface PipelineMetrics). -/
structure PipelineMetrics where
  provider : String
  repository : String
  pipeline_id : String
  pipeline_name : String
  run_id : Nat
  run_attempt : Nat
  run_name : Option String
  run_url : Option String
  status : String
  mode : String
  compute_seconds : Option Int
  duration_seconds : Option Int
  started_at : Option Int
  completed_at : Option Int
  triggered_by : String
  actor : String
  branch : Option String
  jobs : List Job
deriving DecidableEq, Repr

/-- JS truthiness of a nullable/optional string. -/
def isTruthyString : Option String → Bool
  | none => false
  | some s => s ≠ ""

/-- JS `a || b` on an optional string with a string default. -/
def orDefault (a : Option String) (b : String) : String :=
  match a with
  | some s => if s ≠ "" then s else b
  | none => b

/-- JS `a || undefined` on an optional string (empty string collapses to absent). -/
def orUndefined (a : Option String) : Option String :=
  match a with
  | some s => if s ≠ "" then some s else none
  | none => none

/-- VALID_PIPELINE_CONCLUSIONS. -/
def VALID_PIPELINE_CONCLUSIONS : List String :=
  ["success", "failure", "cancelled", "skipped", "timed_out"]

/-- VALID_JOB_CONCLUSIONS. -/
def VALID_JOB_CONCLUSIONS : List String :=
  ["success", "failure", "cancelled", "skipped", "timed_out"]

/-- Type guard isValidPipelineConclusion: non-null and listed. -/
def isValidPipelineConclusion : Option String → Bool
  | none => false
  | some c => VALID_PIPELINE_CONCLUSIONS.contains c

/-- Type guard isValidJobConclusion: non-null and listed. -/
def isValidJobConclusion : Option String → Bool
  | none => false
  | some c => VALID_JOB_CONCLUSIONS.contains c

/-- mapPipelineStatus: completed runs with a valid conclusion report the
conclusion, otherwise the live state is mapped with a `running` default.
When the first branch is taken the conclusion is necessarily `some`, so the
`getD` default is unreachable. -/
def mapPipelineStatus (status : Option String) (conclusion : Option String) : String :=
  if status = some "completed" ∧ isValidPipelineConclusion conclusion = true then
    conclusion.getD "running"
  else if status = some "queued" then "queued"
  else if status = some "in_progress" then "running"
  else if status = some "waiting" then "pending"
  else "running"

/-- mapJobStatus: completed jobs with a valid conclusion report the conclusion,
otherwise the live state is mapped with a `running` default. -/
def mapJobStatus (status : String) (conclusion : Option String) : String :=
  if status = "completed" ∧ isValidJobConclusion conclusion = true then
    conclusion.getD "running"
  else if status = "queued" then "queued"
  else if status = "in_progress" then "running"
  else if status = "waiting" then "pending"
  else "running"

/-- inferPipelineStatusFromJobs: overall pipeline status from the normalized
job list and the run's own (status, conclusion) pair. The first branch tests
JS truthiness of the raw conclusion, not membership in the valid set. -/
def inferPipelineStatusFromJobs (jobs : List Job) (pipelineStatus : Option String)
    (pipelineConclusion : Option String) : String :=
  if pipelineStatus = some "completed" ∧ isTruthyString pipelineConclusion = true then
    mapPipelineStatus pipelineStatus pipelineConclusion
  else if jobs.length = 0 then
    if pipelineStatus = some "queued" then "queued"
    else if pipelineStatus = some "in_progress" then "running"
    else if pipelineStatus = some "waiting" then "pending"
    else "running"
  else if jobs.any (fun job => job.status == "failure") then "failure"
  else if jobs.any (fun job => job.status == "cancelled") then "cancelled"
  else if jobs.any (fun job =>
      job.status == "running" || job.status == "pending" || job.status == "queued") then
    if jobs.any (fun job => job.status == "pending") then "pending"
    else if jobs.any (fun job => job.status == "queued") then "queued"
    else "running"
  else if jobs.all (fun job => job.status == "success" || job.status == "skipped") then
    "success"
  else if pipelineStatus = some "queued" then "queued"
  else if pipelineStatus = some "waiting" then "pending"
  else "running"

/-- Pure core of getCurrentJobId over an already-fetched job list: filter by
exact name, then (on ambiguity) by exact runner-name equality via `find?`,
which takes the FIRST match. Returns (resolved id, number of warnings). -/
def getCurrentJobIdFromJobs (jobs : List GitHubJob) (currentJobName : String)
    (runnerName : Option String) : Option Nat × Nat :=
  let matchingJobs := jobs.filter (fun job => job.name == currentJobName)
  if matchingJobs.length = 0 then (none, 1)
  else if matchingJobs.length = 1 then (matchingJobs.head?.map (fun job => job.id), 0)
  else if isTruthyString runnerName then
    match matchingJobs.find? (fun job => job.runner_name == runnerName) with
    | some runnerMatch => (some runnerMatch.id, 0)
    | none => (none, 1)
  else (none, 1)

/-- getCurrentJobId: the whole body runs inside try/catch; a failed provider
job-listing call is caught and yields (none, one warning). The listing result
is injected as an `Except` value. -/
def getCurrentJobId (jobsResult : Except String (List GitHubJob))
    (currentJobName : String) (runnerName : Option String) : Option Nat × Nat :=
  match jobsResult with
  | .ok jobs => getCurrentJobIdFromJobs jobs currentJobName runnerName
  | .error _ => (none, 1)

/-- Per-job duration: floor((completed - started) / 1000) milliseconds-to-
seconds, only when both timestamps are present; otherwise absent. -/
def durationSecondsOfJob (job : GitHubJob) : Option Int :=
  match job.started_at, job.completed_at with
  | some s, some c => some ((c - s).fdiv 1000)
  | _, _ => none

/-- The normalized Job built for one raw job inside fetchPipelineRun's map. -/
def jobMetric (job : GitHubJob) : Job :=
  { name := job.name
    job_id := toString job.id
    job_url := orUndefined job.html_url
    status := mapJobStatus job.status job.conclusion
    duration_seconds := durationSecondsOfJob job
    started_at := job.started_at
    completed_at := job.completed_at }

/-- Running computeSeconds accumulator: each defined per-job duration is added. -/
def computeSecondsOfJobs (jobs : List GitHubJob) : Int :=
  jobs.foldl
    (fun acc job =>
      match durationSecondsOfJob job with
      | some d => acc + d
      | none => acc) 0

/-- The completed_at determination of fetchPipelineRun. Returns the Date value
used for duration arithmetic, the published string value, and the next clock
sample index. In inline mode with no update timestamp the source constructs
`new Date()` for the Date value and then a separate `new Date().toISOString()`
for the string, consuming two distinct clock samples. -/
def completedAtPair (run : WorkflowRun) (isInlineMode : Bool) (clock : Nat → Int)
    (n : Nat) : Option Int × Option Int × Nat :=
  if run.status = some "completed" ∧ run.updated_at.isSome then
    (run.updated_at, run.updated_at, n)
  else if isInlineMode then
    match run.updated_at with
    | some u => (some u, some u, n)
    | none => (some (clock n), some (clock (n + 1)), n + 2)
  else (none, none, n)

/-- The pipeline-level duration_seconds of fetchPipelineRun: completion minus
start when both resolve, else a live `Date.now() - start` when only the start
is known, else absent. Returns the value and the next clock sample index. -/
def runDurationSeconds (startedAt completedAt : Option Int) (clock : Nat → Int)
    (n : Nat) : Option Int × Nat :=
  match startedAt, completedAt with
  | some s, some c => (some ((c - s).fdiv 1000), n)
  | some s, none => (some ((clock n - s).fdiv 1000), n + 1)
  | none, _ => (none, n)

/-- The job filtering of fetchPipelineRun: drop the job with the resolved
self-job id when one was supplied (a JS-falsy id of 0 disables filtering). -/
def filteredJobsOf (jobsList : List GitHubJob) (excludeJobId : Option Nat) :
    List GitHubJob :=
  match excludeJobId with
  | some eid => if eid ≠ 0 then jobsList.filter (fun job => job.id ≠ eid) else jobsList
  | none => jobsList

/-- Pure core of fetchPipelineRun after the provider calls succeeded: assembles
the PipelineMetrics record from the fetched run, the fetched job list, the
mode, the caller-resolved branch and the optionally resolved self-job id.
Returns the record together with the number of wall-clock samples consumed. -/
def fetchPipelineRunCore (owner repo : String) (run : WorkflowRun)
    (jobsList : List GitHubJob) (isInlineMode : Bool) (branch : String)
    (excludeJobId : Option Nat) (clock : Nat → Int) : PipelineMetrics × Nat :=
  let branchToUse :=
    match run.head_branch with
    | some hb => if isInlineMode = false ∧ hb ≠ "" then hb else branch
    | none => branch
  let filteredJobs := filteredJobsOf jobsList excludeJobId
  let jobMetrics := filteredJobs.map jobMetric
  let computeSeconds := computeSecondsOfJobs filteredJobs
  let pipelineStatus := inferPipelineStatusFromJobs jobMetrics run.status run.conclusion
  let startedAt := run.created_at
  let completedTriple := completedAtPair run isInlineMode clock 0
  let completedAt := completedTriple.1
  let completedAtString := completedTriple.2.1
  let durationPair := runDurationSeconds startedAt completedAt clock completedTriple.2.2
  ({ provider := "github"
     repository := owner ++ "/" ++ repo
     pipeline_id := toString run.workflow_id
     pipeline_name := orDefault run.name (toString run.workflow_id)
     run_id := run.id
     run_attempt := match run.run_attempt with
       | some a => if a ≠ 0 then a else 1
       | none => 1
     run_name := orUndefined run.display_title
     run_url := orUndefined run.html_url
     status := pipelineStatus
     mode := if isInlineMode then "inline" else "external"
     compute_seconds := if computeSeconds > 0 then some computeSeconds else none
     duration_seconds := durationPair.1
     started_at := run.created_at
     completed_at := completedAtString
     triggered_by := orDefault run.event "unknown"
     actor := orDefault run.actor_login "unknown"
     branch := if branchToUse ≠ "" then some branchToUse else none
     jobs := jobMetrics }, durationPair.2)

/-- A provider request error; `status` is the HTTP status code when the thrown
object carries one. -/
structure RequestError where
  status : Option Nat
deriving DecidableEq, Repr

/-- What fetchPipelineRun's run-lookup guard can throw: a freshly constructed
message error, or the original provider error rethrown unchanged. -/
inductive ThrownError where
  | message (s : String)
  | original (e : RequestError)
deriving DecidableEq, Repr

/-- The not-found message constructed by fetchPipelineRun for a 404. -/
def notFoundMessage (runId : Nat) (owner repo : String) : String :=
  "Workflow run " ++ toString runId ++ " not found in " ++ owner ++ "/" ++ repo ++
    ". Check run ID and repository access (GITHUB_TOKEN permissions)."

/-- The try/catch around getWorkflowRun in fetchPipelineRun: a 404 becomes the
distinguishable not-found message, every other error is rethrown unchanged. -/
def guardRunLookup (lookup : Except RequestError WorkflowRun) (runId : Nat)
    (owner repo : String) : Except ThrownError WorkflowRun :=
  match lookup with
  | .ok run => .ok run
  | .error e =>
    if e.status = some 404 then
      .error (.message (notFoundMessage runId owner repo))
    else
      .error (.original e)

/-- The closed status vocabulary of the published record. -/
def CLOSED_STATUS_SET : List String :=
  ["success", "failure", "cancelled", "skipped", "timed_out", "running", "queued", "pending"]

/-! Concrete fixtures used by counterexamples and witnesses. -/

/-- A normalized job whose status is failure. -/
def jobFail : Job :=
  { name := "a", job_id := "1", job_url := none, status := "failure",
    duration_seconds := none, started_at := none, completed_at := none }

/-- First of two raw jobs sharing name and runner. -/
def ghBuild1 : GitHubJob :=
  { name := "build", id := 1, status := "completed", conclusion := some "success",
    started_at := none, completed_at := none, html_url := none,
    runner_name := some "runner-a" }

/-- Second of two raw jobs sharing name and runner. -/
def ghBuild2 : GitHubJob :=
  { name := "build", id := 2, status := "completed", conclusion := some "success",
    started_at := none, completed_at := none, html_url := none,
    runner_name := some "runner-a" }

/-- A raw run still in progress, created at epoch 0 ms, with no update
timestamp. -/
def runInProgress : WorkflowRun :=
  { id := 7, workflow_id := 3, name := some "ci", display_title := none,
    html_url := none, status := some "in_progress", conclusion := none,
    created_at := some 0, updated_at := none, run_attempt := some 1,
    event := some "push", actor_login := some "octocat", head_branch := none }

/-- An injected clock whose first sample is 999 ms and whose later samples are
1000 ms, so consecutive reads land on different wall-clock seconds. -/
def clockTwoSamples : Nat → Int := fun n => if n = 0 then 999 else 1000

/-- A raw job that started and completed at the same instant (0-second job). -/
def ghInstant : GitHubJob :=
  { name := "a", id := 5, status := "completed", conclusion := some "success",
    started_at := some 0, completed_at := some 0, html_url := none,
    runner_name := none }

/-- A raw job whose completed timestamp precedes its started timestamp. -/
def ghNeg : GitHubJob :=
  { name := "a", id := 6, status := "completed", conclusion := some "success",
    started_at := some 1000, completed_at := some 0, html_url := none,
    runner_name := none }

/-- A raw job that ran for five whole seconds. -/
def ghFive : GitHubJob :=
  { name := "a", id := 8, status := "completed", conclusion := some "success",
    started_at := some 0, completed_at := some 5000, html_url := none,
    runner_name := none }

/-! Helper lemmas. -/

/-- A valid job conclusion is a some of a member of the valid list. -/
lemma isValidJobConclusion_eq {c : Option String}
    (h : isValidJobConclusion c = true) :
    ∃ s, c = some s ∧ s ∈ VALID_JOB_CONCLUSIONS := by
  match c with
  | none => simp [isValidJobConclusion] at h
  | some s =>
    refine ⟨s, rfl, ?_⟩
    simpa [isValidJobConclusion, List.contains] using h

/-- A valid pipeline conclusion is a some of a member of the valid list. -/
lemma isValidPipelineConclusion_eq {c : Option String}
    (h : isValidPipelineConclusion c = true) :
    ∃ s, c = some s ∧ s ∈ VALID_PIPELINE_CONCLUSIONS := by
  match c with
  | none => simp [isValidPipelineConclusion] at h
  | some s =>
    refine ⟨s, rfl, ?_⟩
    simpa [isValidPipelineConclusion, List.contains] using h

/-- Every valid job conclusion is in the closed status vocabulary. -/
lemma valid_job_mem_closed {s : String} (h : s ∈ VALID_JOB_CONCLUSIONS) :
    s ∈ CLOSED_STATUS_SET := by
  simp only [VALID_JOB_CONCLUSIONS, List.mem_cons, List.not_mem_nil, or_false] at h
  rcases h with rfl | rfl | rfl | rfl | rfl <;> decide

/-- Every valid pipeline conclusion is in the closed status vocabulary. -/
lemma valid_pipeline_mem_closed {s : String} (h : s ∈ VALID_PIPELINE_CONCLUSIONS) :
    s ∈ CLOSED_STATUS_SET := by
  simp only [VALID_PIPELINE_CONCLUSIONS, List.mem_cons, List.not_mem_nil, or_false] at h
  rcases h with rfl | rfl | rfl | rfl | rfl <;> decide

/-- mapJobStatus only produces members of the closed status vocabulary. -/
lemma mapJobStatus_mem_closed (s : String) (c : Option String) :
    mapJobStatus s c ∈ CLOSED_STATUS_SET := by
  unfold mapJobStatus
  split
  · next h =>
    obtain ⟨-, hv⟩ := h
    obtain ⟨x, rfl, hx⟩ := isValidJobConclusion_eq hv
    simpa using valid_job_mem_closed hx
  · split
    · decide
    · split
      · decide
      · split
        · decide
        · decide

/-- mapPipelineStatus only produces members of the closed status vocabulary. -/
lemma mapPipelineStatus_mem_closed (s c : Option String) :
    mapPipelineStatus s c ∈ CLOSED_STATUS_SET := by
  unfold mapPipelineStatus
  split
  · next h =>
    obtain ⟨-, hv⟩ := h
    obtain ⟨x, rfl, hx⟩ := isValidPipelineConclusion_eq hv
    simpa using valid_pipeline_mem_closed hx
  · split
    · decide
    · split
      · decide
      · split
        · decide
        · decide

/-- inferPipelineStatusFromJobs only produces members of the closed status
vocabulary. -/
lemma inferPipelineStatus_mem_closed (jobs : List Job) (s c : Option String) :
    inferPipelineStatusFromJobs jobs s c ∈ CLOSED_STATUS_SET := by
  unfold inferPipelineStatusFromJobs
  split
  · exact mapPipelineStatus_mem_closed _ _
  · split
    · split
      · decide
      · split
        · decide
        · split
          · decide
          · decide
    · split
      · decide
      · split
        · decide
        · split
          · split
            · decide
            · split
              · decide
              · decide
          · split
            · decide
            · split
              · decide
              · split
                · decide
                · decide

/-- The computeSeconds accumulator equals any start value plus the sum of the
defined per-job durations. -/
lemma computeSeconds_foldl_acc (l : List GitHubJob) (a : Int) :
    l.foldl
      (fun acc job =>
        match durationSecondsOfJob job with
        | some d => acc + d
        | none => acc) a
      = a + (l.filterMap durationSecondsOfJob).sum := by
  induction l generalizing a with
  | nil => simp
  | cons g t ih =>
    cases h : durationSecondsOfJob g with
    | some d =>
      simp only [List.foldl_cons, List.filterMap_cons, h, List.sum_cons]
      rw [ih]
      ring
    | none =>
      simp only [List.foldl_cons, List.filterMap_cons, h]
      rw [ih]

/-- computeSeconds equals the sum of the published jobs' present durations. -/
lemma computeSecondsOfJobs_eq_sum (l : List GitHubJob) :
    computeSecondsOfJobs l = ((l.map jobMetric).filterMap Job.duration_seconds).sum := by
  unfold computeSecondsOfJobs
  rw [computeSeconds_foldl_acc]
  rw [List.filterMap_map]
  simp only [Int.zero_add]
  rfl

/-- Field extraction: the published job list of the core aggregation. -/
lemma core_jobs (owner repo : String) (run : WorkflowRun) (jobsList : List GitHubJob)
    (isInlineMode : Bool) (branch : String) (excludeJobId : Option Nat)
    (clock : Nat → Int) :
    (fetchPipelineRunCore owner repo run jobsList isInlineMode branch excludeJobId
        clock).fst.jobs = (filteredJobsOf jobsList excludeJobId).map jobMetric := rfl

/-- Field extraction: the published compute_seconds of the core aggregation. -/
lemma core_compute (owner repo : String) (run : WorkflowRun) (jobsList : List GitHubJob)
    (isInlineMode : Bool) (branch : String) (excludeJobId : Option Nat)
    (clock : Nat → Int) :
    (fetchPipelineRunCore owner repo run jobsList isInlineMode branch excludeJobId
        clock).fst.compute_seconds =
      if computeSecondsOfJobs (filteredJobsOf jobsList excludeJobId) > 0 then
        some (computeSecondsOfJobs (filteredJobsOf jobsList excludeJobId))
      else none := rfl

/-- Field extraction: the published status of the core aggregation. -/
lemma core_status (owner repo : String) (run : WorkflowRun) (jobsList : List GitHubJob)
    (isInlineMode : Bool) (branch : String) (excludeJobId : Option Nat)
    (clock : Nat → Int) :
    (fetchPipelineRunCore owner repo run jobsList isInlineMode branch excludeJobId
        clock).fst.status =
      inferPipelineStatusFromJobs ((filteredJobsOf jobsList excludeJobId).map jobMetric)
        run.status run.conclusion := rfl

/-- A some conclusion is valid exactly when it lies in the valid job list. -/
lemma isValidJobConclusion_some (o : String) :
    isValidJobConclusion (some o) = true ↔ o ∈ VALID_JOB_CONCLUSIONS := by
  simp [isValidJobConclusion, List.contains]

/-! Claim theorems. -/

/-- Claim C1, counterexample: one failing normalized job, pipeline state
completed with the outcome neutral, which is outside the valid-outcome set, so
the claim's hypothesis holds and it demands failure; the code's ground-truth
branch fires on any truthy conclusion and returns running instead. -/
theorem inferPipelineStatus_invalid_conclusion_masks_failure :
    jobFail.status = "failure" ∧
    "neutral" ∉ VALID_PIPELINE_CONCLUSIONS ∧
    inferPipelineStatusFromJobs [jobFail] (some "completed") (some "neutral")
      = "running" := by
  decide

/-- Claim C1, amended: for every list of normalized jobs and every pipeline
(state, outcome) pair such that the pipeline record is not completed with a
truthy (non-null, non-empty) outcome, if at least one job has status failure
then inferPipelineStatusFromJobs returns failure. -/
theorem inferPipelineStatus_failure_wins (jobs : List Job) (st co : Option String)
    (hnc : ¬(st = some "completed" ∧ isTruthyString co = true))
    (hfail : ∃ j ∈ jobs, j.status = "failure") :
    inferPipelineStatusFromJobs jobs st co = "failure" := by
  obtain ⟨j, hj, hjs⟩ := hfail
  have hne : ¬(jobs.length = 0) := by
    cases jobs with
    | nil => cases hj
    | cons a t => simp
  have hany : jobs.any (fun job => job.status == "failure") = true := by
    rw [List.any_eq_true]
    exact ⟨j, hj, by simp [hjs]⟩
  unfold inferPipelineStatusFromJobs
  rw [if_neg hnc, if_neg hne, if_pos hany]

/-- Claim C1, witness for the amended theorem: an in-progress pipeline with a
single failing job is inferred failed. -/
theorem inferPipelineStatus_failure_wins_witness :
    inferPipelineStatusFromJobs [jobFail] (some "in_progress") none = "failure" :=
  inferPipelineStatus_failure_wins [jobFail] (some "in_progress") none
    (by decide) ⟨jobFail, by decide, rfl⟩

/-- Claim C2, counterexample: two distinct jobs share the target name and both
match the supplied runner identity exactly, yet the resolver returns the first
id rather than none — the find step takes the first survivor instead of
insisting on uniqueness. -/
theorem getCurrentJobId_two_runner_matches_guesses_first :
    ghBuild1.name = "build" ∧ ghBuild2.name = "build" ∧
    ghBuild1.runner_name = some "runner-a" ∧
    ghBuild2.runner_name = some "runner-a" ∧
    ghBuild1.id ≠ ghBuild2.id ∧
    (getCurrentJobIdFromJobs [ghBuild1, ghBuild2] "build"
        (some "runner-a")).fst = some 1 := by
  decide

/-- Claim C2, amended: with two or more same-named jobs and a truthy runner
identity supplied, the resolver returns the id of the FIRST same-named job
whose runner identity matches exactly when any such job exists (in particular
the unique one when exactly one matches), and returns none with a warning when
no same-named job matches the runner identity. -/
theorem getCurrentJobId_multi_match (jobs : List GitHubJob) (nm : String)
    (rn : Option String)
    (h2 : 2 ≤ (jobs.filter (fun job => job.name == nm)).length)
    (hrn : isTruthyString rn = true) :
    (∀ j, (jobs.filter (fun job => job.name == nm)).find?
          (fun job => job.runner_name == rn) = some j →
        getCurrentJobIdFromJobs jobs nm rn = (some j.id, 0)) ∧
    ((jobs.filter (fun job => job.name == nm)).find?
          (fun job => job.runner_name == rn) = none →
        getCurrentJobIdFromJobs jobs nm rn = (none, 1)) := by
  have h0 : ¬((jobs.filter (fun job => job.name == nm)).length = 0) := by omega
  have h1 : ¬((jobs.filter (fun job => job.name == nm)).length = 1) := by omega
  constructor
  · intro j hfind
    unfold getCurrentJobIdFromJobs
    rw [if_neg h0, if_neg h1, if_pos hrn, hfind]
  · intro hfind
    unfold getCurrentJobIdFromJobs
    rw [if_neg h0, if_neg h1, if_pos hrn, hfind]

/-- Claim C2, witness for the amended theorem: of the two same-named
runner-matching jobs the first one's id is returned. -/
theorem getCurrentJobId_multi_match_witness :
    getCurrentJobIdFromJobs [ghBuild1, ghBuild2] "build" (some "runner-a")
      = (some 1, 0) :=
  (getCurrentJobId_multi_match [ghBuild1, ghBuild2] "build" (some "runner-a")
      (by decide) (by decide)).1 ghBuild1 (by decide)

/-- Claim C3, code-bug evidence: in inline mode, on a run still in progress
with no update timestamp, the aggregation consumes TWO wall-clock samples, not
one; the published completed_at string comes from the second sample while
duration_seconds is computed from the first, so with samples 999 ms and
1000 ms the record claims completion at 1000 ms (a 1-second duration from the
start at 0 ms) while reporting duration_seconds of 0. -/
theorem fetchPipelineRun_resamples_clock :
    (fetchPipelineRunCore "octo" "hello" runInProgress [] true "main" none
        clockTwoSamples).snd = 2 ∧
    (fetchPipelineRunCore "octo" "hello" runInProgress [] true "main" none
        clockTwoSamples).fst.completed_at = some 1000 ∧
    (fetchPipelineRunCore "octo" "hello" runInProgress [] true "main" none
        clockTwoSamples).fst.duration_seconds = some 0 ∧
    clockTwoSamples 0 ≠ clockTwoSamples 1 ∧
    ((1000 : Int) - 0).fdiv 1000 = 1 := by
  decide

/-- Claim C4: every published job's duration_seconds is the floor of the
timestamp difference in whole seconds when both timestamps are present and
absent otherwise, and the record's compute_seconds equals the sum of the
present per-job durations and is present exactly when that sum is strictly
positive. -/
theorem job_duration_and_compute_seconds (owner repo : String) (run : WorkflowRun)
    (jobsList : List GitHubJob) (isInlineMode : Bool) (branch : String)
    (excludeJobId : Option Nat) (clock : Nat → Int) :
    (∀ j ∈ (fetchPipelineRunCore owner repo run jobsList isInlineMode branch
        excludeJobId clock).fst.jobs,
      (∀ s c, j.started_at = some s → j.completed_at = some c →
        j.duration_seconds = some ((c - s).fdiv 1000)) ∧
      (j.started_at = none ∨ j.completed_at = none → j.duration_seconds = none)) ∧
    (fetchPipelineRunCore owner repo run jobsList isInlineMode branch excludeJobId
        clock).fst.compute_seconds =
      (if 0 < ((fetchPipelineRunCore owner repo run jobsList isInlineMode branch
            excludeJobId clock).fst.jobs.filterMap Job.duration_seconds).sum then
        some (((fetchPipelineRunCore owner repo run jobsList isInlineMode branch
            excludeJobId clock).fst.jobs.filterMap Job.duration_seconds).sum)
      else none) := by
  constructor
  · intro j hj
    rw [core_jobs] at hj
    obtain ⟨g, hg, rfl⟩ := List.mem_map.mp hj
    constructor
    · intro s c hs hc
      have hs' : g.started_at = some s := hs
      have hc' : g.completed_at = some c := hc
      show durationSecondsOfJob g = some ((c - s).fdiv 1000)
      simp [durationSecondsOfJob, hs', hc']
    · intro h
      rcases h with h | h
      · have h' : g.started_at = none := h
        show durationSecondsOfJob g = none
        simp [durationSecondsOfJob, h']
      · have h' : g.completed_at = none := h
        show durationSecondsOfJob g = none
        cases hgs : g.started_at <;> simp [durationSecondsOfJob, h', hgs]
  · rw [core_compute, core_jobs, ← computeSecondsOfJobs_eq_sum]

/-- Claim C4, witness: a five-second job yields duration 5 and a published
compute_seconds of 5. -/
theorem job_duration_and_compute_seconds_witness :
    (jobMetric ghFive).duration_seconds = some 5 ∧
    (fetchPipelineRunCore "o" "r" runInProgress [ghFive] true "main" none
        clockTwoSamples).fst.compute_seconds = some 5 := by
  have h := job_duration_and_compute_seconds "o" "r" runInProgress [ghFive] true
    "main" none clockTwoSamples
  constructor
  · have hj := (h.1 (jobMetric ghFive) (by decide)).1 0 5000 (by decide) (by decide)
    rw [hj]
    decide
  · rw [h.2]
    decide

/-- Claim C5, counterexample: a single instant job has a PRESENT duration of
zero, yet the aggregate compute_seconds is absent — absence of the aggregate
does not coincide with every duration being absent. -/
theorem compute_seconds_absent_despite_present_duration :
    (jobMetric ghInstant).duration_seconds = some 0 ∧
    (fetchPipelineRunCore "o" "r" runInProgress [ghInstant] true "main" none
        clockTwoSamples).fst.jobs = [jobMetric ghInstant] ∧
    (fetchPipelineRunCore "o" "r" runInProgress [ghInstant] true "main" none
        clockTwoSamples).fst.compute_seconds = none := by
  decide

/-- Claim C5, amended: the compute-seconds aggregate is absent precisely when
the sum of the present per-job durations is not strictly positive (in
particular when every duration is absent), and whenever it is present it
equals that sum. -/
theorem compute_seconds_absent_iff_nonpositive_sum (owner repo : String)
    (run : WorkflowRun) (jobsList : List GitHubJob) (isInlineMode : Bool)
    (branch : String) (excludeJobId : Option Nat) (clock : Nat → Int) :
    ((fetchPipelineRunCore owner repo run jobsList isInlineMode branch excludeJobId
        clock).fst.compute_seconds = none ↔
      ((fetchPipelineRunCore owner repo run jobsList isInlineMode branch
          excludeJobId clock).fst.jobs.filterMap Job.duration_seconds).sum ≤ 0) ∧
    (∀ v, (fetchPipelineRunCore owner repo run jobsList isInlineMode branch
        excludeJobId clock).fst.compute_seconds = some v →
      v = ((fetchPipelineRunCore owner repo run jobsList isInlineMode branch
          excludeJobId clock).fst.jobs.filterMap Job.duration_seconds).sum) := by
  rw [core_compute, core_jobs, ← computeSecondsOfJobs_eq_sum]
  by_cases h : computeSecondsOfJobs (filteredJobsOf jobsList excludeJobId) > 0
  · rw [if_pos h]
    refine ⟨⟨fun hc => absurd hc (by simp), fun hle => absurd h (by omega)⟩, ?_⟩
    intro v hv
    injection hv with hv
    exact hv.symm
  · rw [if_neg h]
    exact ⟨⟨fun _ => by omega, fun _ => rfl⟩, fun v hv => by cases hv⟩

/-- Claim C5, witness for the amended theorem: when the aggregate is present
(here 5) it equals the sum of the present durations. -/
theorem compute_seconds_absent_iff_nonpositive_sum_witness :
    (5 : Int) = ((fetchPipelineRunCore "o" "r" runInProgress [ghFive] true "main"
        none clockTwoSamples).fst.jobs.filterMap Job.duration_seconds).sum :=
  (compute_seconds_absent_iff_nonpositive_sum "o" "r" runInProgress [ghFive] true
      "main" none clockTwoSamples).2 5 (by decide)

/-- Modelled from the claim's words for the refinement comparison of C6: if
state is completed and the outcome is in the valid set return the outcome
exactly; otherwise ignore the outcome and map queued to queued, in_progress to
running, waiting to pending, and any other state to running. -/
def classifyJobSpec (state : String) (outcome : Option String) : String :=
  match outcome with
  | some o =>
    if state = "completed" ∧ o ∈ VALID_JOB_CONCLUSIONS then o
    else if state = "queued" then "queued"
    else if state = "in_progress" then "running"
    else if state = "waiting" then "pending"
    else "running"
  | none =>
    if state = "queued" then "queued"
    else if state = "in_progress" then "running"
    else if state = "waiting" then "pending"
    else "running"

/-- Claim C6: for every (state, outcome) pair the source classifier
mapJobStatus agrees with the claim's case description classifyJobSpec —
completed with a valid outcome returns the outcome exactly, every other input
ignores the outcome and maps the live state with a running default; totality
is inherent in the Lean function. -/
theorem mapJobStatus_matches_spec (state : String) (outcome : Option String) :
    mapJobStatus state outcome = classifyJobSpec state outcome := by
  cases outcome with
  | none => simp [mapJobStatus, classifyJobSpec, isValidJobConclusion]
  | some o => simp only [mapJobStatus, classifyJobSpec, isValidJobConclusion_some,
      Option.getD_some]

/-- Claim C7: the run-lookup guard produces the distinguishable not-found
message (naming the run id and the repository) exactly when the provider error
carries HTTP status 404; any other error is rethrown unchanged and a
successful lookup passes through. -/
theorem guardRunLookup_spec (lookup : Except RequestError WorkflowRun)
    (runId : Nat) (owner repo : String) :
    ((∃ m, guardRunLookup lookup runId owner repo
        = Except.error (ThrownError.message m)) ↔
      (∃ e, lookup = Except.error e ∧ e.status = some 404)) ∧
    (∀ m, guardRunLookup lookup runId owner repo
        = Except.error (ThrownError.message m) →
      m = notFoundMessage runId owner repo) ∧
    (∀ e, lookup = Except.error e → e.status ≠ some 404 →
      guardRunLookup lookup runId owner repo
        = Except.error (ThrownError.original e)) ∧
    (∀ run, lookup = Except.ok run →
      guardRunLookup lookup runId owner repo = Except.ok run) := by
  cases lookup with
  | ok run => simp [guardRunLookup]
  | error e =>
    by_cases h : e.status = some 404
    · simp [guardRunLookup, h]
    · simp [guardRunLookup, h]

/-- Claim C7, witness: a 500-status provider error is rethrown unchanged. -/
theorem guardRunLookup_spec_witness :
    guardRunLookup (Except.error ⟨some 500⟩) 9 "octo" "hello"
      = Except.error (ThrownError.original ⟨some 500⟩) :=
  (guardRunLookup_spec (Except.error ⟨some 500⟩) 9 "octo" "hello").2.2.1
    ⟨some 500⟩ rfl (by decide)

/-- Claim C8: for every input, the pipeline-level status of the published
record and the status of every job in its jobs sequence belong to the closed
status set; raw provider codes are always coerced by the classification rules,
never passed through verbatim. -/
theorem published_statuses_in_closed_set (owner repo : String) (run : WorkflowRun)
    (jobsList : List GitHubJob) (isInlineMode : Bool) (branch : String)
    (excludeJobId : Option Nat) (clock : Nat → Int) :
    (fetchPipelineRunCore owner repo run jobsList isInlineMode branch excludeJobId
        clock).fst.status ∈ CLOSED_STATUS_SET ∧
    ∀ j ∈ (fetchPipelineRunCore owner repo run jobsList isInlineMode branch
        excludeJobId clock).fst.jobs, j.status ∈ CLOSED_STATUS_SET := by
  constructor
  · rw [core_status]
    exact inferPipelineStatus_mem_closed _ _ _
  · intro j hj
    rw [core_jobs] at hj
    obtain ⟨g, hg, rfl⟩ := List.mem_map.mp hj
    exact mapJobStatus_mem_closed _ _

/-- Claim C8, witness: a concrete record's status and its job's status lie in
the closed set. -/
theorem published_statuses_in_closed_set_witness :
    (fetchPipelineRunCore "o" "r" runInProgress [ghInstant] true "main" none
        clockTwoSamples).fst.status ∈ CLOSED_STATUS_SET ∧
    (jobMetric ghInstant).status ∈ CLOSED_STATUS_SET :=
  ⟨(published_statuses_in_closed_set "o" "r" runInProgress [ghInstant] true "main"
      none clockTwoSamples).1,
   (published_statuses_in_closed_set "o" "r" runInProgress [ghInstant] true "main"
      none clockTwoSamples).2 (jobMetric ghInstant) (by decide)⟩

/-- Claim C9: the self-job resolver is total — for every input it returns
either a job id or none, and when the provider job-listing call fails the
error is caught and converted to none together with one warning, so resolution
can never abort the invocation. -/
theorem getCurrentJobId_total (jobsResult : Except String (List GitHubJob))
    (currentJobName : String) (runnerName : Option String) :
    ((∃ id, (getCurrentJobId jobsResult currentJobName runnerName).fst = some id) ∨
      (getCurrentJobId jobsResult currentJobName runnerName).fst = none) ∧
    (∀ e, jobsResult = Except.error e →
      getCurrentJobId jobsResult currentJobName runnerName = (none, 1)) := by
  constructor
  · cases h : (getCurrentJobId jobsResult currentJobName runnerName).fst with
    | none => exact Or.inr rfl
    | some id => exact Or.inl ⟨id, rfl⟩
  · intro e he
    subst he
    rfl

/-- Claim C9, witness: a failed provider listing resolves to none with one
warning. -/
theorem getCurrentJobId_total_witness :
    getCurrentJobId (Except.error "network failure") "build" none = (none, 1) :=
  (getCurrentJobId_total (Except.error "network failure") "build" none).2
    "network failure" rfl

/-- Claim C10: a job whose completed timestamp precedes its started timestamp
gets a strictly negative duration_seconds (neither clamped nor dropped), that
negative value enters the compute-seconds sum additively, and whenever the
total sum is zero or below the published compute_seconds is omitted. -/
theorem negative_duration_not_clamped (g : GitHubJob) (s c : Int)
    (hs : g.started_at = some s) (hc : g.completed_at = some c) (hlt : c < s) :
    ((jobMetric g).duration_seconds = some ((c - s).fdiv 1000) ∧
      (c - s).fdiv 1000 < 0) ∧
    (∀ rest, computeSecondsOfJobs (g :: rest)
        = (c - s).fdiv 1000 + computeSecondsOfJobs rest) ∧
    (∀ (owner repo : String) (run : WorkflowRun) (jobsList : List GitHubJob)
        (isInlineMode : Bool) (branch : String) (clock : Nat → Int),
      computeSecondsOfJobs jobsList ≤ 0 →
      (fetchPipelineRunCore owner repo run jobsList isInlineMode branch none
          clock).fst.compute_seconds = none) := by
  have hdg : durationSecondsOfJob g = some ((c - s).fdiv 1000) := by
    simp [durationSecondsOfJob, hs, hc]
  refine ⟨⟨hdg, Int.fdiv_neg' (by omega) (by decide)⟩, ?_, ?_⟩
  · intro rest
    unfold computeSecondsOfJobs
    rw [computeSeconds_foldl_acc, computeSeconds_foldl_acc]
    simp only [List.filterMap_cons, hdg, List.sum_cons]
    ring
  · intro owner repo run jobsList isInlineMode branch clock hle
    rw [core_compute]
    have hfl : filteredJobsOf jobsList none = jobsList := rfl
    rw [hfl, if_neg (by omega)]

/-- Claim C10, witness: a job completed one second before it started has
duration -1 and a job set with a nonpositive total has compute_seconds
omitted. -/
theorem negative_duration_not_clamped_witness :
    (jobMetric ghNeg).duration_seconds = some (-1) ∧
    (fetchPipelineRunCore "o" "r" runInProgress [ghNeg] true "main" none
        clockTwoSamples).fst.compute_seconds = none := by
  have h := negative_duration_not_clamped ghNeg 1000 0 rfl rfl (by decide)
  refine ⟨?_, h.2.2 "o" "r" runInProgress [ghNeg] true "main" clockTwoSamples
    (by decide)⟩
  rw [h.1.1]
  decide

end GithubReporter
